import Mathlib

/-!
Verification of the Notion MCP server (src/server.py): a shallow embedding
of the two tool operations (notion_search, notion_get_article), the block
shaper (_process_blocks) and the two renderers (_convert_to_markdown,
_convert_to_text), together with theorems settling the frozen claims.

JSON values returned by the upstream API are modelled by the inductive
`Json`; fallible Python evaluation (AttributeError, TypeError, ...) is
modelled by `Except String`; the two HTTP round-trips are modelled by the
`HttpResp` parameter: `ok body` stands for a 2xx response whose body parses
to `body`, `httpError status text` for a response on which
`raise_for_status` raises `httpx.HTTPStatusError`, and `requestError msg`
for a transport failure raising `httpx.RequestError`.
-/

/-- A Python/JSON value as handled by the server code. -/
inductive Json where
  | null : Json
  | bool : Bool → Json
  | num : Int → Json
  | str : String → Json
  | arr : List Json → Json
  | obj : List (String × Json) → Json

/-- Python truthiness: None, False, 0, empty string, empty list and empty
dict are falsy; everything else is truthy. -/
def pyTruthy : Json → Bool
  | Json.null => false
  | Json.bool b => b
  | Json.num n => n != 0
  | Json.str s => s != ""
  | Json.arr l => !l.isEmpty
  | Json.obj f => !f.isEmpty

/-- Python `d.get(key, default)`: defined on dicts only; calling it on any
other value raises AttributeError. -/
def pyGet (j : Json) (k : String) (default : Json) : Except String Json :=
  match j with
  | Json.obj fields =>
      match fields.find? (fun kv => kv.1 = k) with
      | some kv => Except.ok kv.2
      | none => Except.ok default
  | _ => Except.error "AttributeError: object has no attribute get"

/-- Whether the character list `n` occurs contiguously inside `h`
(Python substring membership for `needle in haystack` on strings). -/
def charsContain (h n : List Char) : Bool :=
  (List.range (h.length + 1)).any (fun i => n.isPrefixOf (h.drop i))

/-- Python `k in j`: key membership for dicts, element equality for lists,
substring for strings; TypeError on anything else. -/
def pyContains (k : String) (j : Json) : Except String Bool :=
  match j with
  | Json.obj fields => Except.ok (fields.any (fun kv => kv.1 = k))
  | Json.arr l =>
      Except.ok (l.any (fun x =>
        match x with
        | Json.str s => s = k
        | _ => false))
  | Json.str s => Except.ok (charsContain s.toList k.toList)
  | _ => Except.error "TypeError: argument is not iterable"

/-- Python `for x in j`: lists iterate elements, dicts iterate keys,
strings iterate one-character strings; TypeError otherwise. -/
def pyIter (j : Json) : Except String (List Json) :=
  match j with
  | Json.arr l => Except.ok l
  | Json.obj fields => Except.ok (fields.map (fun kv => Json.str kv.1))
  | Json.str s => Except.ok (s.toList.map (fun c => Json.str (String.singleton c)))
  | _ => Except.error "TypeError: object is not iterable"

/-- Python `sep.join(l)`: concatenates the elements with `sep` between
them; TypeError if any element is not a string. -/
def pyJoin (sep : String) : List Json → Except String String
  | [] => Except.ok ""
  | x :: xs =>
      match x with
      | Json.str s =>
        match xs with
        | [] => Except.ok s
        | _ :: _ =>
          match pyJoin sep xs with
          | Except.ok r => Except.ok (s ++ sep ++ r)
          | Except.error e => Except.error e
      | _ => Except.error "TypeError: sequence item is not a str instance"

mutual
/-- Python `repr` of a value, as used by `str()` on containers. -/
def pyRepr : Json → String
  | Json.null => "None"
  | Json.bool b => if b then "True" else "False"
  | Json.num n => toString n
  | Json.str s => "\x27" ++ s ++ "\x27"
  | Json.arr l => "[" ++ pyReprElems l ++ "]"
  | Json.obj fs => "\x7b" ++ pyReprFields fs ++ "\x7d"

/-- Comma-separated `repr`s of list elements. -/
def pyReprElems : List Json → String
  | [] => ""
  | [x] => pyRepr x
  | x :: xs => pyRepr x ++ ", " ++ pyReprElems xs

/-- Comma-separated `repr`s of dict entries. -/
def pyReprFields : List (String × Json) → String
  | [] => ""
  | [kv] => "\x27" ++ kv.1 ++ "\x27: " ++ pyRepr kv.2
  | kv :: xs => "\x27" ++ kv.1 ++ "\x27: " ++ pyRepr kv.2 ++ ", " ++ pyReprFields xs
end

/-- Python `str()` as performed by an f-string interpolation: strings are
emitted verbatim, everything else via `repr`-style rendering. -/
def pyStr : Json → String
  | Json.str s => s
  | j => pyRepr j

/-- Plain concatenation of a list of strings (Python `"".join` on a list
that is known to contain only strings). -/
def concatStrs : List String → String
  | [] => ""
  | s :: r => s ++ concatStrs r

/-- Elementwise `item.get("plain_text", "")` over a rich-text run list
(src/server.py lines 79-82, 156-159 and 219). -/
def mapGetPlain : List Json → Except String (List Json)
  | [] => Except.ok []
  | item :: rest =>
      match pyGet item "plain_text" (Json.str ""), mapGetPlain rest with
      | Except.ok v, Except.ok vs => Except.ok (v :: vs)
      | Except.error e, _ => Except.error e
      | _, Except.error e => Except.error e

/-- Title extraction shared by both operations (src/server.py lines 76-83
and 152-160): look up the property named "title", falling back to "Name",
and if the chosen property is truthy and has a "title" entry, join the
plain_text of each of its runs; otherwise the title stays empty. -/
def extract_title (properties : Json) : Except String String :=
  match pyGet properties "Name" (Json.obj []) with
  | Except.error e => Except.error e
  | Except.ok nameProp =>
    match pyGet properties "title" nameProp with
    | Except.error e => Except.error e
    | Except.ok title_property =>
      if pyTruthy title_property then
        match pyContains "title" title_property with
        | Except.error e => Except.error e
        | Except.ok c =>
          if c then
            match pyGet title_property "title" (Json.arr []) with
            | Except.error e => Except.error e
            | Except.ok runsJ =>
              match pyIter runsJ with
              | Except.error e => Except.error e
              | Except.ok runs =>
                match mapGetPlain runs with
                | Except.error e => Except.error e
                | Except.ok parts => pyJoin "" parts
          else Except.ok ""
      else Except.ok ""

/-- Tag extraction shared by both operations (src/server.py lines 85-91
and 162-168): look up the "Tags" property; if it is truthy and has a
multi_select entry, collect `tag.get("name")` for each option (the default
None becomes `Json.null`); otherwise the tag list stays empty. -/
def extract_tags (properties : Json) : Except String (List Json) :=
  match pyGet properties "Tags" (Json.obj []) with
  | Except.error e => Except.error e
  | Except.ok tags_property =>
    if pyTruthy tags_property then
      match pyContains "multi_select" tags_property with
      | Except.error e => Except.error e
      | Except.ok c =>
        if c then
          match pyGet tags_property "multi_select" (Json.arr []) with
          | Except.error e => Except.error e
          | Except.ok msJ =>
            match pyIter msJ with
            | Except.error e => Except.error e
            | Except.ok items => items.mapM (fun tag => pyGet tag "name" Json.null)
        else Except.ok []
    else Except.ok []

/-- An HTTP round-trip as seen by the server code. -/
inductive HttpResp where
  | ok : Json → HttpResp
  | httpError : Nat → String → HttpResp
  | requestError : String → HttpResp

/-- The structured error object every except-branch returns. -/
def errObj (msg : String) : Json :=
  Json.obj [("error", Json.str msg)]

/-- The message built by the `httpx.HTTPStatusError` handler
(src/server.py lines 110-111 and 191-192). -/
def httpErrMsg (status : Nat) (body : String) : String :=
  "HTTP error: " ++ toString status ++ " - " ++ body

/-- The request payload built by notion_search before the POST
(src/server.py lines 38-51). -/
structure SearchPayload where
  query : String
  page_size : Int
  sort : Json
  filter : Json

/-- src/server.py lines 38-51: direction from sort_order, fixed timestamp,
page filter, page_size clamped to 100. -/
def searchPayload (query : String) (limit : Int) (sort_order : String) : SearchPayload :=
  { query := query
    page_size := min limit 100
    sort := Json.obj [("timestamp", Json.str "last_edited_time"),
                      ("direction", Json.str (if sort_order = "asc"
                                              then "ascending" else "descending"))]
    filter := Json.obj [("property", Json.str "object"), ("value", Json.str "page")] }

/-- Python equality of a value with the string literal "page"
(src/server.py line 69). -/
def isPageKind : Json → Bool
  | Json.str s => s = "page"
  | _ => false

/-- One iteration of the per-page loop of notion_search (src/server.py
lines 67-102): `none` when the page is skipped by the object-kind check,
otherwise the summary record built from id, title, timestamps, tags and
url. -/
def formatPage (p : Json) : Except String (Option Json) :=
  match pyGet p "object" Json.null with
  | Except.error e => Except.error e
  | Except.ok objKind =>
    if isPageKind objKind then
      match pyGet p "id" Json.null with
      | Except.error e => Except.error e
      | Except.ok pid =>
        match pyGet p "properties" (Json.obj []) with
        | Except.error e => Except.error e
        | Except.ok props =>
          match extract_title props with
          | Except.error e => Except.error e
          | Except.ok title =>
            match extract_tags props with
            | Except.error e => Except.error e
            | Except.ok page_tags =>
              match pyGet p "created_time" Json.null with
              | Except.error e => Except.error e
              | Except.ok created =>
                match pyGet p "last_edited_time" Json.null with
                | Except.error e => Except.error e
                | Except.ok edited =>
                  match pyGet p "url" Json.null with
                  | Except.error e => Except.error e
                  | Except.ok url =>
                    Except.ok (some (Json.obj
                      [("id", pid),
                       ("title", Json.str title),
                       ("created_time", created),
                       ("last_edited_time", edited),
                       ("tags", Json.arr page_tags),
                       ("url", url)]))
    else Except.ok none

/-- The per-page loop of notion_search (src/server.py lines 67-102),
accumulating the formatted results in page order. -/
def formatPages : List Json → Except String (List Json)
  | [] => Except.ok []
  | p :: ps =>
    match formatPage p with
    | Except.error e => Except.error e
    | Except.ok none => formatPages ps
    | Except.ok (some entry) =>
      match formatPages ps with
      | Except.error e => Except.error e
      | Except.ok rest => Except.ok (entry :: rest)

/-- Python list slicing `l[:k]` for an int `k` (negative counts from the
end, clamped at zero). -/
def pySliceTo (l : List Json) (k : Int) : List Json :=
  if 0 ≤ k then l.take k.toNat else l.take (l.length - (-k).toNat)

/-- The trim step of notion_search (src/server.py lines 104-106). -/
def searchTrim (formatted : List Json) (limit : Int) : List Json :=
  if (formatted.length : Int) > limit then pySliceTo formatted limit else formatted

/-- The body of notion_search after a 2xx response (src/server.py lines
61-108): read the result list, shape each page, trim to the limit. -/
def searchShape (body : Json) (limit : Int) : Except String (List Json) :=
  match pyGet body "results" (Json.arr []) with
  | Except.error e => Except.error e
  | Except.ok pagesJ =>
    match pyIter pagesJ with
    | Except.error e => Except.error e
    | Except.ok pages =>
      match formatPages pages with
      | Except.error e => Except.error e
      | Except.ok formatted => Except.ok (searchTrim formatted limit)

/-- The notion_search tool (src/server.py lines 21-115), with the upstream
response passed in: a non-2xx status or transport failure becomes the
corresponding error object, any exception while shaping becomes the
catch-all error object, and otherwise the shaped list is returned. -/
def notion_search (query : String) (limit : Int) (sort_order : String)
    (resp : HttpResp) : Json :=
  match resp with
  | HttpResp.httpError status body => errObj (httpErrMsg status body)
  | HttpResp.requestError m => errObj ("Request error: " ++ m)
  | HttpResp.ok body =>
    match searchShape body limit with
    | Except.ok l => Json.arr l
    | Except.error e => errObj ("Unexpected error: " ++ e)

/-- A processed block as appended by _process_blocks (src/server.py line
221): the dict with keys id, type and text. -/
structure PBlock where
  id : Json
  type : String
  text : String

/-- The eight supported block kinds (src/server.py lines 207-216). -/
def supportedTypes : List String :=
  ["paragraph", "heading_1", "heading_2", "heading_3",
   "bulleted_list_item", "numbered_list_item", "quote", "code"]

/-- The per-block loop of _process_blocks (src/server.py lines 203-221):
a block whose declared type is one of the supported kinds contributes the
join of its rich-text plain_text runs; every other block is skipped. -/
def processBlockList : List Json → Except String (List PBlock)
  | [] => Except.ok []
  | b :: bs =>
    match pyGet b "type" Json.null with
    | Except.error e => Except.error e
    | Except.ok btype =>
      match pyGet b "id" Json.null with
      | Except.error e => Except.error e
      | Except.ok bid =>
        match btype with
        | Json.str t =>
          if t ∈ supportedTypes then
            match pyGet b t (Json.obj []) with
            | Except.error e => Except.error e
            | Except.ok inner =>
              match pyGet inner "rich_text" (Json.arr []) with
              | Except.error e => Except.error e
              | Except.ok contentJ =>
                match pyIter contentJ with
                | Except.error e => Except.error e
                | Except.ok items =>
                  match mapGetPlain items with
                  | Except.error e => Except.error e
                  | Except.ok parts =>
                    match pyJoin "" parts with
                    | Except.error e => Except.error e
                    | Except.ok text =>
                      match processBlockList bs with
                      | Except.error e => Except.error e
                      | Except.ok rest => Except.ok (⟨bid, t, text⟩ :: rest)
          else processBlockList bs
        | _ => processBlockList bs

/-- _process_blocks (src/server.py lines 199-223). The format argument is
accepted but never used by the source function. -/
def _process_blocks (blocks : Json) (format : String) : Except String (List PBlock) :=
  match pyIter blocks with
  | Except.error e => Except.error e
  | Except.ok bs => processBlockList bs

/-- The result dict assembled by notion_get_article (src/server.py lines
173-181) before the format branch. -/
structure ArticleResult where
  id : String
  title : String
  created_time : Json
  last_edited_time : Json
  tags : List Json
  url : Json
  content : List PBlock

/-- The JSON object returned for the default format (src/server.py lines
173-181 and 189). -/
def PBlock.toJson (b : PBlock) : Json :=
  Json.obj [("id", b.id), ("type", Json.str b.type), ("text", Json.str b.text)]

/-- The structured ArticleDetail object, content left as the shaped block
sequence. -/
def ArticleResult.toJson (r : ArticleResult) : Json :=
  Json.obj [("id", Json.str r.id),
            ("title", Json.str r.title),
            ("created_time", r.created_time),
            ("last_edited_time", r.last_edited_time),
            ("tags", Json.arr r.tags),
            ("url", r.url),
            ("content", Json.arr (r.content.map PBlock.toJson))]

/-- One markdown piece of the block loop of _convert_to_markdown
(src/server.py lines 235-254); a block kind with no branch adds nothing. -/
def mdBlock (b : PBlock) : String :=
  if b.type = "paragraph" then b.text ++ "\n\n"
  else if b.type = "heading_1" then "# " ++ b.text ++ "\n\n"
  else if b.type = "heading_2" then "## " ++ b.text ++ "\n\n"
  else if b.type = "heading_3" then "### " ++ b.text ++ "\n\n"
  else if b.type = "bulleted_list_item" then "- " ++ b.text ++ "\n"
  else if b.type = "numbered_list_item" then "1. " ++ b.text ++ "\n"
  else if b.type = "quote" then "> " ++ b.text ++ "\n\n"
  else if b.type = "code" then "```\n" ++ b.text ++ "\n```\n\n"
  else ""

/-- The accumulated markdown of the block loop, in block order. -/
def mdBlocks : List PBlock → String
  | [] => ""
  | b :: bs => mdBlock b ++ mdBlocks bs

/-- _convert_to_markdown (src/server.py lines 226-256): title heading,
optional tags line with backticked tags, then the rendered blocks. -/
def _convert_to_markdown (result : ArticleResult) : String :=
  "# " ++ result.title ++ "\n\n" ++
  (if result.tags.isEmpty then ""
   else "Tags: " ++
        String.intercalate ", " (result.tags.map (fun tag => "`" ++ pyStr tag ++ "`")) ++
        "\n\n") ++
  mdBlocks result.content

/-- One plain-text piece of the block loop of _convert_to_text
(src/server.py lines 266-279). -/
def txtBlock (b : PBlock) : String :=
  if b.type ∈ (["paragraph", "quote"] : List String) then b.text ++ "\n\n"
  else if b.type ∈ (["heading_1", "heading_2", "heading_3"] : List String) then
    b.text.toUpper ++ "\n\n"
  else if b.type = "bulleted_list_item" then "* " ++ b.text ++ "\n"
  else if b.type = "numbered_list_item" then "- " ++ b.text ++ "\n"
  else if b.type = "code" then b.text ++ "\n\n"
  else ""

/-- The accumulated plain text of the block loop, in block order. -/
def txtBlocks : List PBlock → String
  | [] => ""
  | b :: bs => txtBlock b ++ txtBlocks bs

/-- The title-and-tags part of _convert_to_text (src/server.py lines
261-264). The comma join raises TypeError when a tag is not a string. -/
def textHeader (title : String) (tags : List Json) : Except String String :=
  if tags.isEmpty then Except.ok (title ++ "\n\n")
  else
    match pyJoin ", " tags with
    | Except.ok t => Except.ok (title ++ "\n\n" ++ "Tags: " ++ t ++ "\n\n")
    | Except.error e => Except.error e

/-- _convert_to_text (src/server.py lines 259-281). -/
def _convert_to_text (result : ArticleResult) : Except String String :=
  match textHeader result.title result.tags with
  | Except.ok h => Except.ok (h ++ txtBlocks result.content)
  | Except.error e => Except.error e

/-- Assembly of the article result from the two parsed response bodies
(src/server.py lines 149-181). -/
def assembleArticle (article_id : String) (format : String)
    (page_data blocks_data : Json) : Except String ArticleResult :=
  match pyGet page_data "properties" (Json.obj []) with
  | Except.error e => Except.error e
  | Except.ok properties =>
    match extract_title properties with
    | Except.error e => Except.error e
    | Except.ok title =>
      match extract_tags properties with
      | Except.error e => Except.error e
      | Except.ok tags =>
        match pyGet blocks_data "results" (Json.arr []) with
        | Except.error e => Except.error e
        | Except.ok rawBlocks =>
          match _process_blocks rawBlocks format with
          | Except.error e => Except.error e
          | Except.ok content =>
            match pyGet page_data "created_time" Json.null with
            | Except.error e => Except.error e
            | Except.ok created =>
              match pyGet page_data "last_edited_time" Json.null with
              | Except.error e => Except.error e
              | Except.ok edited =>
                match pyGet page_data "url" Json.null with
                | Except.error e => Except.error e
                | Except.ok url =>
                  Except.ok ⟨article_id, title, created, edited, tags, url, content⟩

/-- The format branch of notion_get_article (src/server.py lines 183-189):
markdown and text return the rendered string, anything else returns the
structured object. -/
def renderResult (format : String) (r : ArticleResult) : Except String Json :=
  if format = "markdown" then Except.ok (Json.str (_convert_to_markdown r))
  else if format = "text" then
    match _convert_to_text r with
    | Except.ok s => Except.ok (Json.str s)
    | Except.error e => Except.error e
  else Except.ok (ArticleResult.toJson r)

/-- The try-body of notion_get_article after both 2xx responses
(src/server.py lines 149-189). -/
def articleShape (article_id : String) (format : String)
    (page_data blocks_data : Json) : Except String Json :=
  match assembleArticle article_id format page_data blocks_data with
  | Except.error e => Except.error e
  | Except.ok r => renderResult format r

/-- The notion_get_article tool (src/server.py lines 118-196), with the
two upstream responses passed in. The page GET is issued and checked
first; only if it succeeds is the blocks GET checked; each handler turns
its exception into the corresponding error object. -/
def notion_get_article (article_id : String) (format : String)
    (page_resp blocks_resp : HttpResp) : Json :=
  match page_resp with
  | HttpResp.httpError status body => errObj (httpErrMsg status body)
  | HttpResp.requestError m => errObj ("Request error: " ++ m)
  | HttpResp.ok page_data =>
    match blocks_resp with
    | HttpResp.httpError status body => errObj (httpErrMsg status body)
    | HttpResp.requestError m => errObj ("Request error: " ++ m)
    | HttpResp.ok blocks_data =>
      match articleShape article_id format page_data blocks_data with
      | Except.ok j => j
      | Except.error e => errObj ("Unexpected error: " ++ e)

theorem mdBlocks_append (l1 l2 : List PBlock) :
    mdBlocks (l1 ++ l2) = mdBlocks l1 ++ mdBlocks l2 := by
  induction l1 with
  | nil => simp [mdBlocks]
  | cons b bs ih => simp [mdBlocks, ih, String.append_assoc]

theorem txtBlocks_append (l1 l2 : List PBlock) :
    txtBlocks (l1 ++ l2) = txtBlocks l1 ++ txtBlocks l2 := by
  induction l1 with
  | nil => simp [txtBlocks]
  | cons b bs ih => simp [txtBlocks, ih, String.append_assoc]

/-- C2: if the page-metadata GET succeeds but the child-blocks GET fails
with an HTTP error status, notion_get_article returns the single
structured error object built from the status and body, for every article
id and format, and never a partially-filled ArticleDetail. -/
theorem get_article_blocks_http_error (article_id format : String)
    (page_body : Json) (status : Nat) (body : String) :
    notion_get_article article_id format (HttpResp.ok page_body)
        (HttpResp.httpError status body)
      = errObj ("HTTP error: " ++ toString status ++ " - " ++ body) := rfl

/-- C7: the upstream sort object built by notion_search always carries the
fixed timestamp field last_edited_time, and its direction is "ascending"
exactly when sort_order is "asc" and "descending" for every other value. -/
theorem search_sort_direction (query : String) (limit : Int) (sort_order : String) :
    (searchPayload query limit sort_order).sort
      = Json.obj [("timestamp", Json.str "last_edited_time"),
                  ("direction", Json.str (if sort_order = "asc"
                                          then "ascending" else "descending"))] := rfl

/-- C4: the markdown renderer emits the literal prefix "1. " for every
numbered_list_item block, wherever it sits in the block sequence (so a
second numbered item is also prefixed "1.", not "2."): the rendering of a
content list with such a block inserted is the rendering without it with
exactly "1. " ++ text ++ newline contributed at that position. -/
theorem markdown_numbered_item_literal_one
    (aid title : String) (ct le url : Json) (tags : List Json)
    (pre post : List PBlock) (bid : Json) (t : String) :
    _convert_to_markdown ⟨aid, title, ct, le, tags, url,
        pre ++ [⟨bid, "numbered_list_item", t⟩] ++ post⟩
      = _convert_to_markdown ⟨aid, title, ct, le, tags, url, pre⟩
          ++ ("1. " ++ t ++ "\n") ++ mdBlocks post := by
  simp [_convert_to_markdown, mdBlocks_append, mdBlocks, mdBlock, String.append_assoc]

/-- C9: in text mode the renderer handles code blocks: a code block
contributes exactly its text verbatim followed by a blank line, with no
fence or marker, wherever it sits in the block sequence. -/
theorem text_mode_code_block_verbatim
    (aid title : String) (ct le url : Json) (tags : List Json)
    (pre post : List PBlock) (bid : Json) (t : String) :
    _convert_to_text ⟨aid, title, ct, le, tags, url,
        pre ++ [⟨bid, "code", t⟩] ++ post⟩
      = Except.map (fun s => s ++ ((t ++ "\n\n") ++ txtBlocks post))
          (_convert_to_text ⟨aid, title, ct, le, tags, url, pre⟩) := by
  unfold _convert_to_text
  cases h : textHeader title tags with
  | error e => simp [Except.map]
  | ok hd => simp [Except.map, txtBlocks_append, txtBlocks, txtBlock, String.append_assoc]

/-- C10: a Tags multi_select option object lacking a "name" key yields a
None (null) element in the extracted tags sequence, so the result is not
always a sequence of strings. -/
theorem extract_tags_can_contain_null :
    extract_tags (Json.obj [("Tags", Json.obj [("multi_select",
        Json.arr [Json.obj []])])]) = Except.ok [Json.null]
    ∧ ∀ s : String, Json.null ≠ Json.str s :=
  ⟨rfl, fun _ h => Json.noConfusion h⟩

theorem mapGetPlain_plain (runs : List String) :
    mapGetPlain (runs.map (fun s => Json.obj [("plain_text", Json.str s)]))
      = Except.ok (runs.map Json.str) := by
  induction runs with
  | nil => rfl
  | cons s rest ih => simp [mapGetPlain, pyGet, List.find?, ih]

theorem pyJoin_empty_sep_strs (runs : List String) :
    pyJoin "" (runs.map Json.str) = Except.ok (concatStrs runs) := by
  induction runs with
  | nil => rfl
  | cons s rest ih =>
    cases rest with
    | nil => simp [pyJoin, concatStrs]
    | cons s2 r2 =>
      simp only [List.map_cons] at ih ⊢
      rw [pyJoin, ih]
      simp [concatStrs]

/-- C5: title extraction reads the property named "title", falls back to
one named "Name", and concatenates the plain_text of the title runs in
order; when neither key is present it returns the empty string without
raising. -/
theorem extract_title_fallback_and_absent :
    (∀ fields : List (String × Json),
        (∀ kv ∈ fields, kv.1 ≠ "title" ∧ kv.1 ≠ "Name") →
        extract_title (Json.obj fields) = Except.ok "")
    ∧ (∀ runs : List String,
        extract_title (Json.obj [("title", Json.obj [("title",
            Json.arr (runs.map (fun s => Json.obj [("plain_text", Json.str s)])))])])
          = Except.ok (concatStrs runs))
    ∧ (∀ runs : List String,
        extract_title (Json.obj [("Name", Json.obj [("title",
            Json.arr (runs.map (fun s => Json.obj [("plain_text", Json.str s)])))])])
          = Except.ok (concatStrs runs)) := by
  refine ⟨?_, ?_, ?_⟩
  · intro fields h
    have h1 : fields.find? (fun kv => kv.1 = "Name") = none := by
      rw [List.find?_eq_none]
      intro kv hkv
      simpa using (h kv hkv).2
    have h2 : fields.find? (fun kv => kv.1 = "title") = none := by
      rw [List.find?_eq_none]
      intro kv hkv
      simpa using (h kv hkv).1
    simp [extract_title, pyGet, h1, h2, pyTruthy]
  · intro runs
    simp [extract_title, pyGet, List.find?, pyTruthy, pyContains, pyIter,
          mapGetPlain_plain, pyJoin_empty_sep_strs]
  · intro runs
    simp [extract_title, pyGet, List.find?, pyTruthy, pyContains, pyIter,
          mapGetPlain_plain, pyJoin_empty_sep_strs]

theorem extract_title_fallback_and_absent_witness :
    (∀ kv ∈ ([("Other", Json.null)] : List (String × Json)),
        kv.1 ≠ "title" ∧ kv.1 ≠ "Name")
    ∧ extract_title (Json.obj [("Other", Json.null)]) = Except.ok "" :=
  ⟨by decide,
   extract_title_fallback_and_absent.1 [("Other", Json.null)] (by decide)⟩

/-- C8: any format value other than "markdown" and "text" is silently
treated exactly like "json": notion_get_article returns the same value it
would return for format "json" (the structured object, content left as
the block sequence), for all inputs. -/
theorem get_article_unknown_format_as_json
    (article_id format : String) (page_resp blocks_resp : HttpResp)
    (h1 : format ≠ "markdown") (h2 : format ≠ "text") :
    notion_get_article article_id format page_resp blocks_resp
      = notion_get_article article_id "json" page_resp blocks_resp := by
  cases page_resp with
  | httpError s b => rfl
  | requestError m => rfl
  | ok page_data =>
    cases blocks_resp with
    | httpError s b => rfl
    | requestError m => rfl
    | ok blocks_data =>
      have hassem : assembleArticle article_id format page_data blocks_data
          = assembleArticle article_id "json" page_data blocks_data := rfl
      have hrender : ∀ r, renderResult format r = renderResult "json" r := by
        intro r
        simp [renderResult, h1, h2]
      simp only [notion_get_article, articleShape, hassem]
      cases assembleArticle article_id "json" page_data blocks_data with
      | error e => rfl
      | ok r => simp [hrender r]

theorem get_article_unknown_format_as_json_witness :
    ("xml" ≠ "markdown") ∧ ("xml" ≠ "text")
    ∧ notion_get_article "a" "xml" (HttpResp.ok (Json.obj []))
        (HttpResp.ok (Json.obj []))
      = notion_get_article "a" "json" (HttpResp.ok (Json.obj []))
        (HttpResp.ok (Json.obj [])) :=
  ⟨by decide, by decide,
   get_article_unknown_format_as_json "a" "xml" (HttpResp.ok (Json.obj []))
     (HttpResp.ok (Json.obj [])) (by decide) (by decide)⟩

/-- A well-formed raw block as served by the blocks endpoint: an id value,
a declared type and the plain texts of the rich-text runs stored under the
type key. -/
structure RawBlock where
  rid : Json
  btype : String
  runs : List String

/-- The JSON object encoding of a raw block. -/
def RawBlock.toJson (b : RawBlock) : Json :=
  Json.obj [("id", b.rid), ("type", Json.str b.btype),
            (b.btype, Json.obj [("rich_text",
              Json.arr (b.runs.map (fun s => Json.obj [("plain_text", Json.str s)])))])]

/-- The processed block a supported raw block is shaped into. -/
def RawBlock.shaped (b : RawBlock) : PBlock :=
  ⟨b.rid, b.btype, concatStrs b.runs⟩

theorem processBlockList_cons_supported (b : RawBlock) (rest : List Json)
    (h : b.btype ∈ supportedTypes) :
    processBlockList (RawBlock.toJson b :: rest)
      = match processBlockList rest with
        | Except.error e => Except.error e
        | Except.ok r => Except.ok (RawBlock.shaped b :: r) := by
  have hne1 : b.btype ≠ "id" := by rintro hh; rw [hh] at h; simp [supportedTypes] at h
  have hne2 : b.btype ≠ "type" := by rintro hh; rw [hh] at h; simp [supportedTypes] at h
  have h1 : ¬(("id" : String) = b.btype) := fun hh => hne1 hh.symm
  have h2 : ¬(("type" : String) = b.btype) := fun hh => hne2 hh.symm
  simp [processBlockList, RawBlock.toJson, RawBlock.shaped, pyGet, List.find?,
        h1, h2, h, pyIter, mapGetPlain_plain, pyJoin_empty_sep_strs]

theorem processBlockList_cons_unsupported (b : RawBlock) (rest : List Json)
    (h : b.btype ∉ supportedTypes) :
    processBlockList (RawBlock.toJson b :: rest) = processBlockList rest := by
  simp [processBlockList, RawBlock.toJson, pyGet, List.find?, h]

/-- C6: block shaping keeps exactly the blocks whose declared type is one
of the eight supported kinds, silently excludes every other block without
raising, and the shaped sequence preserves the relative order of the kept
blocks. -/
theorem process_blocks_filters_supported_in_order
    (bs : List RawBlock) (format : String) :
    _process_blocks (Json.arr (bs.map RawBlock.toJson)) format
      = Except.ok ((bs.filter (fun b => b.btype ∈ supportedTypes)).map RawBlock.shaped) := by
  simp only [_process_blocks, pyIter]
  induction bs with
  | nil => rfl
  | cons b rest ih =>
    by_cases hb : b.btype ∈ supportedTypes
    · rw [List.map_cons, processBlockList_cons_supported b _ hb, ih]
      simp [hb]
    · rw [List.map_cons, processBlockList_cons_unsupported b _ hb, ih]
      simp [hb]

theorem searchTrim_length_le (f : List Json) (limit : Int) (h : 0 ≤ limit) :
    ((searchTrim f limit).length : Int) ≤ limit := by
  unfold searchTrim
  split
  · unfold pySliceTo
    rw [if_pos h]
    have hlen : (f.take limit.toNat).length = min limit.toNat f.length :=
      List.length_take _ _
    omega
  · rename_i hng
    omega

theorem searchShape_length_le (body : Json) (limit : Int) (h : 0 ≤ limit)
    (f : List Json) (hs : searchShape body limit = Except.ok f) :
    (f.length : Int) ≤ limit := by
  unfold searchShape at hs
  split at hs
  · exact absurd hs (by simp)
  · split at hs
    · exact absurd hs (by simp)
    · split at hs
      · exact absurd hs (by simp)
      · rw [Except.ok.injEq] at hs
        subst hs
        exact searchTrim_length_le _ _ h

/-- C1: for every limit in [1,100] the payload notion_search builds
requests an upstream page_size of min(limit, 100), and whenever the
operation returns a result list, that list has at most limit entries,
regardless of how many results the upstream response contained. -/
theorem search_page_size_and_limit
    (query sort_order : String) (limit : Int) (resp : HttpResp)
    (h1 : 1 ≤ limit) (h2 : limit ≤ 100) :
    (searchPayload query limit sort_order).page_size = min limit 100
    ∧ ∀ l, notion_search query limit sort_order resp = Json.arr l →
        (l.length : Int) ≤ limit := by
  refine ⟨rfl, ?_⟩
  intro l hl
  have h0 : (0 : Int) ≤ limit := by omega
  cases resp with
  | httpError s b => simp [notion_search, errObj] at hl
  | requestError m => simp [notion_search, errObj] at hl
  | ok body =>
    simp only [notion_search] at hl
    cases hs : searchShape body limit with
    | error e => rw [hs] at hl; simp [errObj] at hl
    | ok f =>
      rw [hs] at hl
      simp only [Json.arr.injEq] at hl
      subst hl
      exact searchShape_length_le body limit h0 _ hs

theorem search_page_size_and_limit_witness :
    ((1 : Int) ≤ 5) ∧ ((5 : Int) ≤ 100)
    ∧ ((searchPayload "q" 5 "desc").page_size = min 5 100
       ∧ ∀ l, notion_search "q" 5 "desc" (HttpResp.ok (Json.obj [])) = Json.arr l →
           (l.length : Int) ≤ 5) :=
  ⟨by decide, by decide,
   search_page_size_and_limit "q" "desc" 5 (HttpResp.ok (Json.obj []))
     (by decide) (by decide)⟩

/-- The dict shape of one shaped search result (src/server.py lines
93-102). -/
def isSummaryObj (j : Json) : Prop :=
  ∃ pid title created edited tags url,
    j = Json.obj [("id", pid), ("title", Json.str title),
                  ("created_time", created), ("last_edited_time", edited),
                  ("tags", Json.arr tags), ("url", url)]

/-- An object carrying exactly one error string. -/
def isErrorObj (j : Json) : Prop := ∃ m, j = errObj m

/-- The shaped payload of notion_search: a list of summary objects. -/
def isShapedSearch (j : Json) : Prop :=
  ∃ l, j = Json.arr l ∧ ∀ e ∈ l, isSummaryObj e

/-- The shaped payload of notion_get_article: a rendered string or a
structured ArticleDetail object. -/
def isShapedArticle (j : Json) : Prop :=
  (∃ s, j = Json.str s) ∨ ∃ r : ArticleResult, j = ArticleResult.toJson r

theorem formatPage_shape (p : Json) (e : Json)
    (h : formatPage p = Except.ok (some e)) : isSummaryObj e := by
  unfold formatPage at h
  repeat' split at h
  all_goals
    first
      | (rw [Except.ok.injEq, Option.some.injEq] at h
         exact ⟨_, _, _, _, _, _, h.symm⟩)
      | (exact absurd h (by simp))

theorem formatPages_entries (pages : List Json) (l : List Json)
    (h : formatPages pages = Except.ok l) : ∀ e ∈ l, isSummaryObj e := by
  induction pages generalizing l with
  | nil =>
    simp [formatPages] at h
    subst h
    intro e he
    simp at he
  | cons p ps ih =>
    unfold formatPages at h
    split at h
    · exact absurd h (by simp)
    · exact ih _ h
    · rename_i entry heq
      split at h
      · exact absurd h (by simp)
      · rename_i rest heq2
        rw [Except.ok.injEq] at h
        subst h
        intro e he
        rcases List.mem_cons.mp he with he | he
        · subst he
          exact formatPage_shape p e heq
        · exact ih rest heq2 e he

theorem searchTrim_subset (f : List Json) (limit : Int) :
    ∀ e ∈ searchTrim f limit, e ∈ f := by
  intro e he
  unfold searchTrim at he
  split at he
  · unfold pySliceTo at he
    split at he
    · exact List.take_subset _ _ he
    · exact List.take_subset _ _ he
  · exact he

theorem searchShape_entries (body : Json) (limit : Int) (f : List Json)
    (hs : searchShape body limit = Except.ok f) : ∀ e ∈ f, isSummaryObj e := by
  unfold searchShape at hs
  split at hs
  · exact absurd hs (by simp)
  · split at hs
    · exact absurd hs (by simp)
    · split at hs
      · exact absurd hs (by simp)
      · rename_i formatted heq
        rw [Except.ok.injEq] at hs
        subst hs
        intro e he
        exact formatPages_entries _ _ heq e (searchTrim_subset _ _ e he)

theorem articleShape_shaped (aid fmt : String) (p b j : Json)
    (h : articleShape aid fmt p b = Except.ok j) : isShapedArticle j := by
  unfold articleShape at h
  split at h
  · exact absurd h (by simp)
  · rename_i r heq
    unfold renderResult at h
    split at h
    · rw [Except.ok.injEq] at h
      exact Or.inl ⟨_, h.symm⟩
    · split at h
      · split at h
        · rw [Except.ok.injEq] at h
          exact Or.inl ⟨_, h.symm⟩
        · exact absurd h (by simp)
      · rw [Except.ok.injEq] at h
        exact Or.inr ⟨r, h.symm⟩

/-- C3: both operations convert every upstream HTTP failure, transport
failure and unexpected shaping failure at their own boundary into an
object carrying a single error string; the caller always receives either
the shaped payload or such an error object, never an exception. -/
theorem operations_return_shaped_or_error :
    (∀ (query : String) (limit : Int) (sort_order : String) (resp : HttpResp),
        isErrorObj (notion_search query limit sort_order resp)
        ∨ isShapedSearch (notion_search query limit sort_order resp))
    ∧ (∀ (article_id format : String) (page_resp blocks_resp : HttpResp),
        isErrorObj (notion_get_article article_id format page_resp blocks_resp)
        ∨ isShapedArticle (notion_get_article article_id format page_resp blocks_resp)) := by
  constructor
  · intro query limit sort_order resp
    cases resp with
    | httpError s b => exact Or.inl ⟨_, rfl⟩
    | requestError m => exact Or.inl ⟨_, rfl⟩
    | ok body =>
      cases hs : searchShape body limit with
      | error e =>
        refine Or.inl ⟨"Unexpected error: " ++ e, ?_⟩
        simp [notion_search, hs]
      | ok f =>
        refine Or.inr ⟨f, ?_, searchShape_entries body limit f hs⟩
        simp [notion_search, hs]
  · intro article_id format page_resp blocks_resp
    cases page_resp with
    | httpError s b => exact Or.inl ⟨_, rfl⟩
    | requestError m => exact Or.inl ⟨_, rfl⟩
    | ok page_data =>
      cases blocks_resp with
      | httpError s b => exact Or.inl ⟨_, rfl⟩
      | requestError m => exact Or.inl ⟨_, rfl⟩
      | ok blocks_data =>
        cases ha : articleShape article_id format page_data blocks_data with
        | error e =>
          refine Or.inl ⟨"Unexpected error: " ++ e, ?_⟩
          simp [notion_get_article, ha]
        | ok j =>
          refine Or.inr ?_
          have hsh := articleShape_shaped article_id format page_data blocks_data j ha
          simpa [notion_get_article, ha] using hsh
